import Mathlib

/-!
Verification of the Globle-Price-Ranking control plane against its
natural-language specification.

The development shallowly embeds the three components the claims are about:

* the pipeline orchestrator of src/src/product_pipeline.py
  (stage nodes node_download_media, node_extract_product_info,
  node_search_products, node_finalize_pipeline over the PipelineState
  TypedDict, composed sequentially as in create_product_pipeline);
* the message-intake dispatcher of src/src/webhook_receiver.py
  (dedup ledger processed_messages with mark_message_processed /
  is_message_processed, the per-event admission logic of handle_webhook,
  send_acknowledgment / send_product_results / process_pipeline_in_background);
* the candidate-URL deduplication pass of src/webhook_receiver.py
  (process_instagram_message, lines 918-945).

External collaborators (CDN download, VLM call, Claude web search, the
urlparse library function, wall-clock time) are modelled as explicit
parameters: a call that can raise in Python becomes an Except- or
Option-valued input, and each node consumes exactly the collaborator
results the Python code consumes.  Machine details that none of the
claims touch (timestamps inside log entries, cost metadata, file sizes)
are elided and noted at each definition.
-/

/-! ## Pipeline data model (src/src/product_pipeline.py) -/

/-- Structured log entry, one per stage-node invocation (dataclass StageLog).
In the Python code a single StageLog object is created with status
"started", mutated in place, and appended to the state exactly once at
node return, so each node contributes one entry carrying its final
status.  The timestamp, duration and non-claim metadata fields are
elided; the is_rate_limit flag is the metadata key written by the search
node's error path. -/
structure StageLog where
  stage : String
  status : String
  message : Option String := none
  error : Option String := none
  is_rate_limit : Option Bool := none
deriving DecidableEq

/-- Product record inside product_info.products, as read by
send_product_results in src/src/webhook_receiver.py. -/
structure ProductRecord where
  brand : String := ""
  product : String := ""
deriving DecidableEq

/-- Structured product information returned by the VLM extraction stage
(only the fields the claims' code paths read). -/
structure ProductInfo where
  brand_name : Option String := none
  product_name : Option String := none
  category : Option String := none
  products : List ProductRecord := []
deriving DecidableEq

/-- State schema of the pipeline (TypedDict PipelineState).  The logs and
errors fields are Annotated with operator.add, so node updates append to
them; every other field is overwritten by a node update.  Durations are
modelled in whole seconds (Python uses float wall-clock seconds; no claim
depends on fractional values), and the search_metadata dict is elided. -/
structure PipelineState where
  cdn_url : String
  session_id : String
  sender_id : Option String
  media_file_path : Option String := none
  media_type : Option String := none
  download_error : Option String := none
  extracted_frames : Option (List String) := none
  product_info : Option ProductInfo := none
  search_queries : Option (List String) := none
  extraction_error : Option String := none
  product_urls : List String := []
  search_error : Option String := none
  pipeline_start_time : String := ""
  pipeline_end_time : Option String := none
  total_duration_seconds : Option Nat := none
  logs : List StageLog := []
  errors : List String := []
  completed_successfully : Bool := false
deriving DecidableEq

/-- Initial state prepared by run_pipeline before invoking the graph:
every stage output is None, product_urls is empty, logs and errors are
empty, completed_successfully is False. -/
def initial_pipeline_state (cdn_url session_id : String) (sender_id : Option String)
    (start_time : String) : PipelineState :=
  { cdn_url := cdn_url
    session_id := session_id
    sender_id := sender_id
    pipeline_start_time := start_time }

/-- Python truthiness of an Optional[str] slot: None and the empty string
are falsy, any other string is truthy (used by the skip checks
state.get('download_error') and state.get('extraction_error')). -/
def truthy : Option String → Bool
  | none => false
  | some s => !(s == "")

/-- Python truthiness test of the search_queries slot: state.get
('search_queries', []) returns the stored value (None when the key holds
None), and "if not search_queries" fires on both None and []. -/
def queries_falsy : Option (List String) → Bool
  | none => true
  | some qs => qs.isEmpty

/-! ## Stage nodes -/

/-- Outcome of the download_from_cdn collaborator call as consumed by
node_download_media: a success dict with the fields the node reads, a
falsy-or-unsuccessful result, or a raised exception (its str). -/
inductive DownloadOutcome where
  | ok (file_path : String) (media_type : String) (file_size : Nat) (filename : String)
  | noResult
  | exn (msg : String)
deriving DecidableEq

/-- Node 1 (node_download_media): on success stores media_file_path and
media_type with a success log; on a falsy result records the fixed error
text; on an exception records str(e); both error paths append to the
errors accumulator with the "[download] " prefix. -/
def node_download_media (o : DownloadOutcome) (st : PipelineState) : PipelineState :=
  match o with
  | DownloadOutcome.ok file_path media_type _ _ =>
    { st with
      media_file_path := some file_path
      media_type := some media_type
      logs := st.logs ++ [{ stage := "download", status := "success" }] }
  | DownloadOutcome.noResult =>
    { st with
      download_error := some "Download failed: No result returned"
      logs := st.logs ++ [{ stage := "download", status := "error",
                            error := some "Download failed: No result returned" }]
      errors := st.errors ++ ["[download] Download failed: No result returned"] }
  | DownloadOutcome.exn msg =>
    { st with
      download_error := some msg
      logs := st.logs ++ [{ stage := "download", status := "error", error := some msg }]
      errors := st.errors ++ ["[download] " ++ msg] }

/-- Outcome of the extraction stage's collaborator calls as consumed by
node_extract_product_info: prepare_media_for_extraction returning no
frames, extract_with_google_gemini returning nothing, a successful
extraction, or a raised exception. -/
inductive ExtractOutcome where
  | ok (frames : List String) (info : ProductInfo) (queries : List String)
  | prepFailed
  | vlmEmpty
  | exn (msg : String)
deriving DecidableEq

/-- Node 2 (node_extract_product_info).  The node first checks
state.get('download_error'): when truthy it appends a single skipped log
entry and returns no other update, in particular it does NOT set
extraction_error.  Otherwise it runs the extraction work and records
either the stage outputs or extraction_error. -/
def node_extract_product_info (o : ExtractOutcome) (st : PipelineState) : PipelineState :=
  if truthy st.download_error then
    { st with
      logs := st.logs ++ [{ stage := "extraction", status := "skipped",
                            message := some "Skipped due to download failure" }] }
  else
    match o with
    | ExtractOutcome.ok frames info queries =>
      { st with
        extracted_frames := some frames
        product_info := some info
        search_queries := some queries
        logs := st.logs ++ [{ stage := "extraction", status := "success" }] }
    | ExtractOutcome.prepFailed =>
      { st with
        extraction_error := some "Failed to prepare media for extraction"
        logs := st.logs ++ [{ stage := "extraction", status := "error",
                              error := some "Failed to prepare media for extraction" }]
        errors := st.errors ++ ["[extraction] Failed to prepare media for extraction"] }
    | ExtractOutcome.vlmEmpty =>
      { st with
        extraction_error := some "VLM extraction returned no results"
        logs := st.logs ++ [{ stage := "extraction", status := "error",
                              error := some "VLM extraction returned no results" }]
        errors := st.errors ++ ["[extraction] VLM extraction returned no results"] }
    | ExtractOutcome.exn msg =>
      { st with
        extraction_error := some msg
        logs := st.logs ++ [{ stage := "extraction", status := "error", error := some msg }]
        errors := st.errors ++ ["[extraction] " ++ msg] }

/-- Test whether the second character list is an initial segment of the
first (helper for the substring test below). -/
def starts_with : List Char → List Char → Bool
  | _, [] => true
  | [], _ :: _ => false
  | c :: cs, d :: ds => c == d && starts_with cs ds

/-- Occurrence of sub as a contiguous segment of l (helper for the
substring test below). -/
def occurs_in : List Char → List Char → Bool
  | [], sub => sub.isEmpty
  | c :: cs, sub => starts_with (c :: cs) sub || occurs_in cs sub

/-- Substring test, modelling Python's sub in s over the underlying
character lists. -/
def str_contains (s sub : String) : Bool :=
  occurs_in s.data sub.data

/-- Lower-casing, modelling Python's str.lower() character by character. -/
def lower_string (s : String) : String :=
  String.mk (s.data.map Char.toLower)

/-- Rate-limit classification of a search failure (node_search_products):
"rate_limit" in str(e).lower() or "429" in str(e). -/
def is_rate_limit_error (msg : String) : Bool :=
  str_contains (lower_string msg) "rate_limit" || str_contains msg "429"

/-- Result of the in-node retry loop of node_search_products: the final
result (ok urls after a break, or the error re-raised from the last
attempt), the sleep delays performed in order, and the number of
attempts made (calls to the search collaborator). -/
structure SearchLoopResult where
  result : Except String (List String)
  delays : List Nat
  attempts : Nat

/-- The retry loop of node_search_products, parametrised by the search
collaborator f (attempt index to outcome).  It mirrors
  for attempt in range(max_retries):
      try: product_urls = searcher.search_products(...); break
      except e:
          if is_rate_limit(e) and attempt < max_retries - 1:
              time.sleep(retry_delay)
          else: raise
the second argument is the number of loop iterations still available;
attempt < max_retries - 1 holds exactly when further iterations remain.
If the range is exhausted without running (0 iterations) the loop falls
through with the initial product_urls = []. -/
def search_attempt_loop (f : Nat → Except String (List String)) (retry_delay : Nat) :
    Nat → Nat → SearchLoopResult
  | _, 0 => { result := Except.ok [], delays := [], attempts := 0 }
  | attempt, remaining + 1 =>
    match f attempt with
    | Except.ok urls => { result := Except.ok urls, delays := [], attempts := 1 }
    | Except.error e =>
      if is_rate_limit_error e && remaining != 0 then
        let r := search_attempt_loop f retry_delay (attempt + 1) remaining
        { result := r.result, delays := retry_delay :: r.delays, attempts := r.attempts + 1 }
      else
        { result := Except.error e, delays := [], attempts := 1 }

/-- Node 3 (node_search_products).  Skips (one skipped log entry, no
other update) when state.get('extraction_error') is truthy; errors out
when the search_queries slot is falsy; otherwise runs the retry loop
with max_retries = 2 and retry_delay = 60 as in the source.  A loop
error is caught by the node's outer except-block, which records
search_error, an error log entry carrying the is_rate_limit metadata
flag, and an errors entry prefixed "Rate Limit Error" or "Search Error".
Returns the updated state together with the sleep delays performed. -/
def node_search_products (f : Nat → Except String (List String)) (st : PipelineState) :
    PipelineState × List Nat :=
  if truthy st.extraction_error then
    ({ st with
       logs := st.logs ++ [{ stage := "search", status := "skipped",
                             message := some "Skipped due to extraction failure" }] }, [])
  else if queries_falsy st.search_queries then
    ({ st with
       search_error := some "No search queries available"
       logs := st.logs ++ [{ stage := "search", status := "error",
                             error := some "No search queries available" }]
       errors := st.errors ++ ["[search] No search queries available"] }, [])
  else
    let r := search_attempt_loop f 60 0 2
    match r.result with
    | Except.ok urls =>
      ({ st with
         product_urls := urls
         logs := st.logs ++ [{ stage := "search", status := "success" }] }, r.delays)
    | Except.error e =>
      let rl := is_rate_limit_error e
      ({ st with
         search_error := some e
         logs := st.logs ++ [{ stage := "search", status := "error",
                               error := some e, is_rate_limit := some rl }]
         errors := st.errors ++
           [(if rl then "[search] Rate Limit Error: " else "[search] Search Error: ") ++ e] },
       r.delays)

/-- Final node (node_finalize_pipeline).  The duration computation
datetime.fromisoformat(state['pipeline_start_time']) can raise, modelled
by the Except-valued duration input; the outer except-block then returns
only pipeline_end_time and completed_successfully = False.  On the
normal path completed_successfully = not bool(errors) and
bool(product_urls).  The best-effort cleanup of temporary artifacts sits
in an inner try/except whose failure is logged and otherwise ignored, so
the cleanup outcome does not influence the returned update; the
parameter records that the node consumes (and absorbs) it. -/
def node_finalize_pipeline (duration : Except String Nat) (_cleanup : Except String Unit)
    (end_time : String) (st : PipelineState) : PipelineState :=
  match duration with
  | Except.error _ =>
    { st with
      pipeline_end_time := some end_time
      completed_successfully := false }
  | Except.ok d =>
    let ok := st.errors.isEmpty && !st.product_urls.isEmpty
    { st with
      pipeline_end_time := some end_time
      total_duration_seconds := some d
      completed_successfully := ok
      logs := st.logs ++ [{ stage := "finalize",
                            status := if ok then "success" else "completed_with_errors",
                            message := some "Pipeline completed" }] }

/-- Sequential composition of the four nodes, as wired by
create_product_pipeline (START -> download -> extract -> search ->
finalize -> END; the graph has no conditional routing).  The graph-level
RetryPolicy(max_attempts = 3, backoff_factor = 2.0) re-runs a node only
when the node raises; every node body is wrapped in try/except and
always returns an update, so that exponential schedule never fires and
the composition is a plain function.  Returns the final state and the
sleep delays performed by the search node's in-node retry loop. -/
def run_product_pipeline (dl : DownloadOutcome) (ex : ExtractOutcome)
    (f : Nat → Except String (List String)) (duration : Except String Nat)
    (cleanup : Except String Unit) (end_time : String) (st0 : PipelineState) :
    PipelineState × List Nat :=
  let s1 := node_download_media dl st0
  let s2 := node_extract_product_info ex s1
  let s3 := node_search_products f s2
  (node_finalize_pipeline duration cleanup end_time s3.1, s3.2)

/-! ## Message-intake dispatcher (src/src/webhook_receiver.py) -/

/-- Bound of the dedup ledger (MAX_PROCESSED_MESSAGES = 1000). -/
def MAX_PROCESSED_MESSAGES : Nat := 1000

/-- Membership test of the dedup ledger (is_message_processed:
message_id in processed_messages).  The ledger is a Python set of
message-id strings; it is modelled as the list of its elements in
insertion order, which a set does not itself record - see set_pop. -/
def is_message_processed (message_id : String) (ledger : List String) : Bool :=
  ledger.contains message_id

/-- Model of Python's set.pop(), which removes and returns an ARBITRARY
element of a nonempty set (a hash-table position, not the oldest
insertion).  The nondeterminism is captured by the choice function pick:
any concrete CPython behaviour corresponds to some pick, and the index
is reduced modulo the length so that every pick removes exactly one
element of a nonempty list, as set.pop does. -/
def set_pop (pick : List String → Nat) (l : List String) : List String :=
  if l.isEmpty then l else l.eraseIdx (pick l % l.length)

/-- Insertion into the dedup ledger (mark_message_processed):
processed_messages.add(message_id), then, when the size exceeds
MAX_PROCESSED_MESSAGES, one processed_messages.pop().  The source's
comment above the pop reads "Remove oldest (first) items", but set.pop
removes an arbitrary element. -/
def mark_message_processed (pick : List String → Nat) (message_id : String)
    (ledger : List String) : List String :=
  let l1 := if ledger.contains message_id then ledger else ledger ++ [message_id]
  if l1.length > MAX_PROCESSED_MESSAGES then set_pop pick l1 else l1

/-- One attachment of an inbound message: its type string and the
payload.url field when present (payload.get('url', '') yields "" when
absent, modelled by getD below). -/
structure Attachment where
  atype : String := ""
  payload_url : Option String := none
deriving DecidableEq

/-- The message part of a messaging event: the platform message id mid
(absent on some events), the is_echo flag, and the attachment list. -/
structure Message where
  mid : Option String := none
  is_echo : Bool := false
  attachments : List Attachment := []
deriving DecidableEq

/-- One messaging event of a webhook entry: sender id (event.get
('sender', \x7b\x7d).get('id'), None when absent), the optional message
object, and whether the event carries a 'read' key (read receipt). -/
structure MessagingEvent where
  sender : Option String := none
  message : Option Message := none
  has_read : Bool := false
deriving DecidableEq

/-- Message identifier used for dedup (handle_webhook: message.get
('mid', 'unknown')): the platform mid when present, the CONSTANT string
"unknown" otherwise. -/
def effective_message_id (m : Message) : String :=
  m.mid.getD "unknown"

/-- CDN-URL extraction of process_instagram_message: the attachment loop
keeps the last payload.url that is nonempty and contains
'lookaside.fbsbx.com'; attachments without such a URL leave the previous
value in place. -/
def extract_cdn_url (m : Message) : Option String :=
  m.attachments.foldl
    (fun acc a =>
      let u := a.payload_url.getD ""
      if !(u == "") && str_contains u "lookaside.fbsbx.com" then some u else acc)
    none

/-- Externally visible dispatcher action for one admitted event: the
immediate acknowledgment (send_acknowledgment, whose text depends on
whether a CDN URL was found) and the background pipeline launch
(Thread(target=process_pipeline_in_background, args=(cdn_url,
message_id, sender_id))). -/
inductive DispatchAction where
  | ack (recipient : Option String) (has_cdn : Bool)
  | launch (cdn_url : String) (session_id : String) (recipient : Option String)
deriving DecidableEq

/-- Admission logic of handle_webhook for a single messaging event,
threading the dedup ledger: skip self-originated events, events without
a message, echoes and read receipts, and duplicates; otherwise mark the
id processed, extract the CDN URL, acknowledge, and launch the pipeline
when a CDN URL was found.  business_id is
config.INSTAGRAM_BUSINESS_ACCOUNT_ID (None when the environment
variable is unset, compared with Python ==, so None == None skips). -/
def process_messaging_event (business_id : Option String) (pick : List String → Nat)
    (ledger : List String) (e : MessagingEvent) : List String × List DispatchAction :=
  if e.sender == business_id then (ledger, [])
  else
    match e.message with
    | none => (ledger, [])
    | some m =>
      let message_id := effective_message_id m
      if m.is_echo || e.has_read then (ledger, [])
      else if is_message_processed message_id ledger then (ledger, [])
      else
        let ledger1 := mark_message_processed pick message_id ledger
        match extract_cdn_url m with
        | some u =>
          (ledger1, [DispatchAction.ack e.sender true,
                     DispatchAction.launch u message_id e.sender])
        | none => (ledger1, [DispatchAction.ack e.sender false])

/-- Sequential processing of a list of messaging events (the nested
entry/messaging loops of handle_webhook, or equally several webhook
deliveries in arrival order), accumulating the dispatched actions. -/
def process_events (business_id : Option String) (pick : List String → Nat)
    (ledger : List String) : List MessagingEvent → List String × List DispatchAction
  | [] => (ledger, [])
  | e :: rest =>
    let r1 := process_messaging_event business_id pick ledger e
    let r2 := process_events business_id pick r1.1 rest
    (r2.1, r1.2 ++ r2.2)

/-- Response of the POST /webhook handler: 401 when signature
verification is enabled and the check fails (before the try-block);
otherwise the entire event processing sits in a try/except whose both
arms return Response('EVENT_RECEIVED', status=200). -/
def handle_webhook_status (verification_enabled signature_valid : Bool)
    (processing : Except String Unit) : Nat :=
  if verification_enabled && !signature_valid then 401
  else
    match processing with
    | Except.ok _ => 200
    | Except.error _ => 200

/-! ## Outbound result delivery (src/src/webhook_receiver.py)

The marker texts below stand for the exact Python message strings
(emoji and punctuation included); every claim counts messages and
distinguishes branches, none depends on the wording. -/

/-- Acknowledgment text of send_acknowledgment when a CDN URL was found. -/
def ack_text_analyzing : String :=
  "Analyzing your product... I will send you the purchase links shortly!"

/-- Acknowledgment text of send_acknowledgment without a CDN URL. -/
def ack_text_generic : String := "Received your message. Processing..."

/-- Text sent by send_product_results when the URL list is empty. -/
def no_links_text : String :=
  "Sorry, no purchase links were found for this product. Try sending another product!"

/-- Failure notice of process_pipeline_in_background when the pipeline
result is not completed_successfully. -/
def pipeline_failed_text : String :=
  "Sorry, there was an issue while processing your product. Please try again!"

/-- Generic failure notice of process_pipeline_in_background's
except-block (an exception escaped run_pipeline or result handling). -/
def crashed_text : String := "Sorry, something went wrong. Please try again later!"

/-- Chunking of the result URLs by send_product_results:
for i in range(0, len(product_urls), urls_per_message) with
urls_per_message = 10, so batches of at most 10 in order. -/
def url_batches : List String → List (List String)
  | [] => []
  | x :: xs => (x :: xs.take 9) :: url_batches (xs.drop 9)
termination_by l => l.length
decreasing_by simp; omega

/-- Product-name suffix of the first result message (send_product_results
reads product_info['products'][0] when present). -/
def product_name_suffix (info : Option ProductInfo) : String :=
  match info with
  | none => ""
  | some pi =>
    match pi.products with
    | [] => ""
    | p :: _ =>
      if !(p.brand == "") && !(p.product == "") then " for " ++ p.brand ++ " " ++ p.product
      else if !(p.brand == "") then " for " ++ p.brand
      else if !(p.product == "") then " for " ++ p.product
      else ""

/-- Text of one result batch: the first batch carries the header, later
batches the "More links (Part k)" prefix; URLs are appended separated by
blank lines and the message is stripped. -/
def batch_message_text (info : Option ProductInfo) (idx : Nat) (batch : List String) : String :=
  let body := String.join (batch.map (fun u => u ++ "\n\n"))
  let head :=
    if idx == 0 then "Here are purchase links" ++ product_name_suffix info ++ ":\n\n"
    else "More links (Part " ++ toString (idx + 1) ++ "):\n\n"
  (head ++ body).trim

/-- Messages sent by send_product_results: a single apology when the URL
list is empty, otherwise one message per batch of 10. -/
def send_product_results (urls : List String) (info : Option ProductInfo) : List String :=
  if urls.isEmpty then [no_links_text]
  else (url_batches urls).mapIdx (fun i b => batch_message_text info i b)

/-- The pipeline result dict as read by process_pipeline_in_background
(result.get of sender_id, completed_successfully, product_urls,
product_info). -/
structure PipelineRunResult where
  sender_id : Option String := none
  completed_successfully : Bool := false
  product_urls : List String := []
  product_info : Option ProductInfo := none
deriving DecidableEq

/-- Messages sent to the sender by one background pipeline task
(process_pipeline_in_background): the run_pipeline call and result
handling may raise (Except.error, also covering run_pipeline returning
None, where result.get raises AttributeError), answered by the generic
failure notice; a result without truthy completed_successfully gets the
pipeline-failure notice; a successful result gets send_product_results. -/
def process_pipeline_in_background (res : Except String PipelineRunResult) : List String :=
  match res with
  | Except.error _ => [crashed_text]
  | Except.ok r =>
    if r.completed_successfully then send_product_results r.product_urls r.product_info
    else [pipeline_failed_text]

/-- Messages one dispatcher action produces for the user: the
acknowledgment text, or the background task's deliveries for a launch
(given the pipeline outcome res of that launch). -/
def action_messages (res : Except String PipelineRunResult) : DispatchAction → List String
  | DispatchAction.ack _ has_cdn => [if has_cdn then ack_text_analyzing else ack_text_generic]
  | DispatchAction.launch _ _ _ => process_pipeline_in_background res

/-- All messages the originating user receives for one inbound event, in
send order: the admission logic's actions, each expanded to its
messages. -/
def event_user_messages (business_id : Option String) (pick : List String → Nat)
    (ledger : List String) (e : MessagingEvent) (res : Except String PipelineRunResult) :
    List String :=
  ((process_messaging_event business_id pick ledger e).2.map (action_messages res)).flatten

/-! ## Candidate-URL deduplication (src/webhook_receiver.py, lines 918-945) -/

/-- Dedup signature of a parsed URL: parsed.netloc.lower() + parsed.path
(the query string and fragment are not part of the signature). -/
def url_signature (netloc path : String) : String := netloc.toLower ++ path

/-- Signature of a raw URL under the urlparse model: urlparse is an
external library call modelled by the parse parameter, which returns
(netloc, path) or fails (urlparse raises ValueError on some malformed
inputs, e.g. unbalanced IPv6 brackets). -/
def sig_of (parse : String → Option (String × String)) (u : String) : Option String :=
  (parse u).map (fun p => url_signature p.1 p.2)

/-- The deduplication loop over expanded_urls, carrying unique_urls and
seen_domains: a parseable URL is kept iff its signature is unseen (the
signature is then recorded); a URL whose parse fails is kept iff the
exact string is not already among unique_urls, and contributes no
signature.  seen_domains is a Python set; only membership is used, so
the insertion-ordered list model is adequate. -/
def dedup_urls_go (parse : String → Option (String × String)) :
    List String → List String → List String → List String
  | [], unique, _ => unique
  | url :: rest, unique, seen =>
    match parse url with
    | some p =>
      let sig := url_signature p.1 p.2
      if seen.contains sig then dedup_urls_go parse rest unique seen
      else dedup_urls_go parse rest (unique ++ [url]) (seen ++ [sig])
    | none =>
      if unique.contains url then dedup_urls_go parse rest unique seen
      else dedup_urls_go parse rest (unique ++ [url]) seen

/-- The full deduplication pass: fold the loop over the candidate list
with empty accumulators, yielding product_data.shop_urls. -/
def dedup_candidate_urls (parse : String → Option (String × String))
    (urls : List String) : List String :=
  dedup_urls_go parse urls [] []

/-! ## Sample values used by witnesses and counterexamples -/

/-- Sample CDN URL of the shape the dispatcher admits. -/
def demo_cdn_url : String := "https://lookaside.fbsbx.com/ig_messaging_cdn/?asset_id=1"

/-- Fresh pipeline state for a sample run. -/
def pipeline_demo_initial : PipelineState :=
  initial_pipeline_state demo_cdn_url "m1" (some "alice") "t0"

/-- State reaching Finalize with no errors and no product URLs. -/
def finalize_demo_state : PipelineState :=
  { pipeline_demo_initial with media_file_path := some "downloads/a.jpg" }

/-- Clean state reaching Finalize with temporary artifacts to clean up
and a nonempty result list. -/
def finalize_cleanup_demo_state : PipelineState :=
  { pipeline_demo_initial with
      media_file_path := some "downloads/a.mp4"
      extracted_frames := some ["frames/f0.jpg"]
      product_urls := ["https://retailer.example/p/42"] }

/-- State entering the search node with one query and no upstream error. -/
def search_demo_state : PipelineState :=
  { pipeline_demo_initial with search_queries := some ["brand product buy"] }

/-- Search collaborator that fails rate-limited on every attempt. -/
def rate_limited_search : Nat → Except String (List String) :=
  fun _ => Except.error "Error code: 429 - rate_limit_error"

/-- Repeated ledger insertion (the per-event mark_message_processed calls
of successive admissions, in arrival order). -/
def insert_all (pick : List String → Nat) (ids : List String) (ledger : List String) :
    List String :=
  ids.foldl (fun led i => mark_message_processed pick i led) ledger

/-- n pairwise-distinct message identifiers in insertion order: the id
inserted k-th is the string of k letters a, so distinctness follows from
the lengths. -/
def dedup_ids (n : Nat) : List String :=
  (List.range n).map (fun i => String.mk (List.replicate i 'a'))

/-- One legal behaviour of set.pop(): remove the element at the last
position of the modelled element list, i.e. the most recently inserted
one.  CPython's set.pop removes whichever element sits first in the hash
table, which for string keys can be any of them - in particular this
one. -/
def pop_newest : List String → Nat := fun l => l.length - 1

/-- Sample message carrying one attachment whose payload.url is a CDN
URL (used by witnesses and counterexamples). -/
def cdn_share_message : Message :=
  { mid := some "b", is_echo := false,
    attachments := [{ atype := "ig_reel", payload_url := some demo_cdn_url }] }

/-- Sample admissible event carrying cdn_share_message. -/
def cdn_event : MessagingEvent :=
  { sender := some "alice", message := some cdn_share_message, has_read := false }

/-- Sample admissible event whose message has no attachment, hence no CDN
URL. -/
def no_cdn_event : MessagingEvent :=
  { sender := some "alice"
    message := some { mid := some "m-77", is_echo := false, attachments := [] }
    has_read := false }

/-- Sample event from sender alice whose message lacks a mid. -/
def no_mid_event_alice : MessagingEvent :=
  { sender := some "alice", message := some { mid := none }, has_read := false }

/-- Sample event from sender bob whose message lacks a mid. -/
def no_mid_event_bob : MessagingEvent :=
  { sender := some "bob", message := some { mid := none }, has_read := false }

/-- Sample urlparse model for the C6 witness, mirroring the spec's
dedup-signature test: the two item/1 URLs parse to the same
(host, path) pair - the query string is not part of the signature - and
any other string (notably the malformed bracket URL) fails to parse. -/
def demo_parse : String → Option (String × String) :=
  fun u =>
    if u == "https://shop.example.com/item/1" then some ("shop.example.com", "/item/1")
    else if u == "https://shop.example.com/item/1?ref=ig" then some ("shop.example.com", "/item/1")
    else none

/-- Sample candidate list with one duplicated signature and one repeated
malformed URL. -/
def demo_urls : List String :=
  ["https://shop.example.com/item/1", "https://shop.example.com/item/1?ref=ig",
   "http://[", "http://["]

/-! ## Claims -/

/-- Claim C1: on every completed (non-raising) Finalize, the terminal
flag completed_successfully is true iff no stage recorded an error (the
errors accumulator is empty) and the Search stage produced at least one
candidate URL; in particular a run with an empty result list and no
errors ends with completed_successfully = false. -/
theorem claim_C1_finalize_success_iff (d : Nat) (c : Except String Unit) (t : String)
    (st : PipelineState) :
    ((node_finalize_pipeline (Except.ok d) c t st).completed_successfully = true
      ↔ (st.errors = [] ∧ st.product_urls ≠ []))
    ∧ (st.errors = [] → st.product_urls = [] →
        (node_finalize_pipeline (Except.ok d) c t st).completed_successfully = false) := by
  constructor
  · simp [node_finalize_pipeline, List.isEmpty_iff]
  · intro h1 h2
    simp [node_finalize_pipeline, h1, h2]

/-- Witness for C1 at a concrete clean state with zero search results. -/
theorem claim_C1_witness :
    (node_finalize_pipeline (Except.ok 4) (Except.ok ()) "t9"
        finalize_demo_state).completed_successfully = false :=
  (claim_C1_finalize_success_iff 4 (Except.ok ()) "t9" finalize_demo_state).2 rfl rfl

/-- Counterexample to claim C10 as stated: when the best-effort cleanup
computation raises, the inner except-block of node_finalize_pipeline
absorbs the exception and the node returns its NORMAL update, so
completed_successfully is computed as usual and here equals true, not
the claimed false. -/
theorem claim_C10_counterexample :
    (node_finalize_pipeline (Except.ok 3) (Except.error "disk full") "t9"
        finalize_cleanup_demo_state).completed_successfully = true := rfl

/-- Claim C10 (amended): node_finalize_pipeline is total - it returns a
state update for every input, always sets pipeline_end_time, and on the
path where the duration computation raises it sets
completed_successfully to false; a raise of the cleanup computation is
caught by an inner handler and leaves the normal update (including a
possibly-true success flag) in place. -/
theorem claim_C10_finalize_total (o : Except String Nat) (c : Except String Unit)
    (t : String) (st : PipelineState) :
    (node_finalize_pipeline o c t st).pipeline_end_time = some t
    ∧ (∀ e, o = Except.error e →
        (node_finalize_pipeline o c t st).completed_successfully = false) := by
  cases o <;> simp [node_finalize_pipeline]

/-- Witness for C10 on the raising-duration path. -/
theorem claim_C10_witness :
    (node_finalize_pipeline (Except.error "boom") (Except.ok ()) "t9"
        finalize_demo_state).pipeline_end_time = some "t9"
    ∧ (node_finalize_pipeline (Except.error "boom") (Except.ok ()) "t9"
        finalize_demo_state).completed_successfully = false :=
  ⟨(claim_C10_finalize_total (Except.error "boom") (Except.ok ()) "t9" finalize_demo_state).1,
   (claim_C10_finalize_total (Except.error "boom") (Except.ok ()) "t9" finalize_demo_state).2
     "boom" rfl⟩

/-- Claim C8: every POST /webhook request whose signature check passes,
or that arrives with verification disabled, is answered with status 200,
also when internal processing of the body raises. -/
theorem claim_C8_always_acknowledged (v s : Bool) (p : Except String Unit)
    (h : v = false ∨ s = true) :
    handle_webhook_status v s p = 200 := by
  rcases h with h | h <;> cases p <;> simp [handle_webhook_status, h]

/-- Witness for C8: verification enabled, signature valid, processing
raising - still 200. -/
theorem claim_C8_witness :
    handle_webhook_status true true (Except.error "boom") = 200 :=
  claim_C8_always_acknowledged true true (Except.error "boom") (Or.inr rfl)

/-- Counterexample to claim C2 as stated: in a run whose Acquire stage
records an error, Extract logs skipped, but the Search stage is NOT
skipped - its skip guard tests only extraction_error, which a skipped
Extract leaves unset - so Search runs, finds no search queries, and logs
status "error", not the claimed "skipped". -/
theorem claim_C2_counterexample :
    ((run_product_pipeline (DownloadOutcome.exn "connection reset")
        (ExtractOutcome.exn "unreachable") (fun _ => Except.ok [])
        (Except.ok 2) (Except.ok ()) "t9" pipeline_demo_initial).1.logs.map
          (fun l => (l.stage, l.status)))
      = [("download", "error"), ("extraction", "skipped"),
         ("search", "error"), ("finalize", "completed_with_errors")] := rfl

/-- Claim C2 (amended): when Acquire records a (nonempty) error, the
Extract stage is not invoked - the run is independent of the extraction
and search collaborators - and logs status skipped; the Search stage is
not skipped but errors out with "No search queries available" (status
"error"); Finalize still runs and sets completed_successfully = false. -/
theorem claim_C2_download_failure_cascade (e : String) (he : e ≠ "")
    (ex ex2 : ExtractOutcome) (f f2 : Nat → Except String (List String))
    (d : Except String Nat) (c : Except String Unit) (t : String)
    (cdn sid start : String) (sender : Option String) :
    run_product_pipeline (DownloadOutcome.exn e) ex f d c t
        (initial_pipeline_state cdn sid sender start)
      = run_product_pipeline (DownloadOutcome.exn e) ex2 f2 d c t
          (initial_pipeline_state cdn sid sender start)
    ∧ (((run_product_pipeline (DownloadOutcome.exn e) ex f d c t
          (initial_pipeline_state cdn sid sender start)).1.logs.map
            (fun l => (l.stage, l.status))).take 3
        = [("download", "error"), ("extraction", "skipped"), ("search", "error")])
    ∧ (run_product_pipeline (DownloadOutcome.exn e) ex f d c t
        (initial_pipeline_state cdn sid sender start)).1.search_error
        = some "No search queries available"
    ∧ (run_product_pipeline (DownloadOutcome.exn e) ex f d c t
        (initial_pipeline_state cdn sid sender start)).1.completed_successfully = false := by
  have hb : (e == "") = false := beq_eq_false_iff_ne.mpr he
  cases d <;>
    simp [run_product_pipeline, node_download_media, node_extract_product_info,
          node_search_products, node_finalize_pipeline, initial_pipeline_state,
          truthy, queries_falsy, hb]

/-- Witness for C2 (amended) at a concrete failing download. -/
theorem claim_C2_witness :
    (run_product_pipeline (DownloadOutcome.exn "connection reset")
        (ExtractOutcome.exn "x") (fun _ => Except.ok ["u"]) (Except.ok 2) (Except.ok ())
        "t9" (initial_pipeline_state demo_cdn_url "m1" (some "alice") "t0")).1.completed_successfully
      = false :=
  (claim_C2_download_failure_cascade "connection reset" (by decide)
      (ExtractOutcome.exn "x") (ExtractOutcome.prepFailed)
      (fun _ => Except.ok ["u"]) (fun _ => Except.ok []) (Except.ok 2) (Except.ok ())
      "t9" demo_cdn_url "m1" "t0" (some "alice")).2.2.2

/-- Claim C5: a Search-stage failure flagged rate-limited (error text
containing "rate_limit" or "429") is retried exactly once after the
fixed 60-second delay, within the in-node attempt cap of 2: the loop
makes 2 attempts and sleeps exactly [60]; after exhaustion the failure
is recorded in this run's state (search_error, an error log entry with
is_rate_limit = true, an errors entry) without being re-raised, so the
graph-level exponential RetryPolicy never fires; a failure that is not
rate-limited gets no in-node retry and no delay at all. -/
theorem claim_C5_rate_limit_retry (st : PipelineState) (qs : List String)
    (hee : st.extraction_error = none)
    (hq : st.search_queries = some qs) (hqne : qs ≠ [])
    (f : Nat → Except String (List String)) (e0 e1 : String)
    (h0 : f 0 = Except.error e0) (h1 : f 1 = Except.error e1)
    (hr0 : is_rate_limit_error e0 = true) (hr1 : is_rate_limit_error e1 = true) :
    (search_attempt_loop f 60 0 2).attempts = 2
    ∧ (search_attempt_loop f 60 0 2).delays = [60]
    ∧ (node_search_products f st).2 = [60]
    ∧ (node_search_products f st).1.search_error = some e1
    ∧ (node_search_products f st).1.errors
        = st.errors ++ ["[search] Rate Limit Error: " ++ e1]
    ∧ (node_search_products f st).1.logs
        = st.logs ++ [{ stage := "search", status := "error",
                        error := some e1, is_rate_limit := some true }]
    ∧ (∀ g u, g 0 = Except.error u → is_rate_limit_error u = false →
        (search_attempt_loop g 60 0 2).attempts = 1
        ∧ (search_attempt_loop g 60 0 2).delays = []) := by
  have hloop : search_attempt_loop f 60 0 2
      = { result := Except.error e1, delays := [60], attempts := 2 } := by
    simp [search_attempt_loop, h0, h1, hr0, hr1]
  have hne : qs.isEmpty = false := by
    cases qs with
    | nil => exact absurd rfl hqne
    | cons a l => rfl
  refine ⟨by simp [hloop], by simp [hloop], ?_, ?_, ?_, ?_, ?_⟩
  · simp [node_search_products, truthy, hee, queries_falsy, hq, hne, hloop]
  · simp [node_search_products, truthy, hee, queries_falsy, hq, hne, hloop, hr1]
  · simp [node_search_products, truthy, hee, queries_falsy, hq, hne, hloop, hr1]
  · simp [node_search_products, truthy, hee, queries_falsy, hq, hne, hloop, hr1]
  · intro g u hg hnr
    constructor <;> simp [search_attempt_loop, hg, hnr]

/-- Witness for C5 at a concrete always-rate-limited collaborator. -/
theorem claim_C5_witness :
    (node_search_products rate_limited_search search_demo_state).2 = [60] :=
  (claim_C5_rate_limit_retry search_demo_state ["brand product buy"] rfl rfl
      (by decide) rate_limited_search "Error code: 429 - rate_limit_error"
      "Error code: 429 - rate_limit_error" rfl rfl (by decide) (by decide)).2.2.1

/-! ## Dedup-ledger lemmas (claims C3, C4, C9) -/

theorem contains_true_of_mem {a : String} {l : List String} (h : a ∈ l) :
    l.contains a = true := by simpa using h

theorem contains_false_of_not_mem {a : String} {l : List String} (h : a ∉ l) :
    l.contains a = false := by simpa using h

theorem eraseIdx_append_last (l : List String) (x : String) :
    (l ++ [x]).eraseIdx l.length = l := by
  induction l with
  | nil => rfl
  | cons a t ih => simp [List.eraseIdx, ih]

theorem set_pop_newest_append (l : List String) (x : String) :
    set_pop pop_newest (l ++ [x]) = l := by
  have h3 : l.length % (l.length + 1) = l.length := Nat.mod_eq_of_lt (Nat.lt_succ_self _)
  simp [set_pop, pop_newest, h3, eraseIdx_append_last]

theorem mark_fresh_below_bound (pick : List String → Nat) (i : String) (ledger : List String)
    (hm : i ∉ ledger) (hlen : ledger.length < MAX_PROCESSED_MESSAGES) :
    mark_message_processed pick i ledger = ledger ++ [i] := by
  simp [mark_message_processed, hm]
  intro h
  exact absurd h (by omega)

theorem mark_fresh_at_bound_pop_newest (i : String) (ledger : List String)
    (hm : i ∉ ledger) (hlen : ledger.length = MAX_PROCESSED_MESSAGES) :
    mark_message_processed pop_newest i ledger = ledger := by
  simp [mark_message_processed, hm]
  rw [if_pos (by omega : MAX_PROCESSED_MESSAGES < ledger.length + 1)]
  exact set_pop_newest_append ledger i

theorem insert_all_fresh (pick : List String → Nat) :
    ∀ (ids ledger : List String),
    (∀ i ∈ ids, i ∉ ledger) → ids.Nodup →
    ledger.length + ids.length ≤ MAX_PROCESSED_MESSAGES →
    insert_all pick ids ledger = ledger ++ ids := by
  intro ids
  induction ids with
  | nil => intro ledger _ _ _; simp [insert_all]
  | cons a t ih =>
    intro ledger hfresh hnd hlen
    have ha : a ∉ ledger := hfresh a (by simp)
    have hlt : ledger.length < MAX_PROCESSED_MESSAGES := by
      simp at hlen; omega
    have hstep : mark_message_processed pick a ledger = ledger ++ [a] :=
      mark_fresh_below_bound pick a ledger ha hlt
    have ht : ∀ i ∈ t, i ∉ ledger ++ [a] := by
      intro i hi
      have h1 : i ∉ ledger := hfresh i (by simp [hi])
      have h2 : i ≠ a := by
        intro h; subst h; exact (List.nodup_cons.mp hnd).1 hi
      simp [h1, h2]
    have hrec := ih (ledger ++ [a]) ht (List.nodup_cons.mp hnd).2 (by simp at hlen ⊢; omega)
    calc insert_all pick (a :: t) ledger
        = insert_all pick t (mark_message_processed pick a ledger) := rfl
      _ = insert_all pick t (ledger ++ [a]) := by rw [hstep]
      _ = (ledger ++ [a]) ++ t := hrec
      _ = ledger ++ a :: t := by simp

theorem insert_all_snoc (pick : List String → Nat) (ids : List String) (x : String)
    (st : List String) :
    insert_all pick (ids ++ [x]) st = mark_message_processed pick x (insert_all pick ids st) := by
  simp [insert_all, List.foldl_append]

theorem dedup_ids_nodup (n : Nat) : (dedup_ids n).Nodup := by
  refine List.Nodup.map ?_ (List.nodup_range n)
  intro i j h
  have hd := congrArg String.data h
  simpa using hd

theorem last_not_mem_dedup_ids (n : Nat) :
    String.mk (List.replicate n 'a') ∉ dedup_ids n := by
  intro h
  simp only [dedup_ids, List.mem_map, List.mem_range] at h
  obtain ⟨i, hi, hEq⟩ := h
  have hd := congrArg String.data hEq
  simp at hd
  omega

theorem dedup_ids_length (n : Nat) : (dedup_ids n).length = n := by
  simp [dedup_ids]

set_option maxRecDepth 4000 in
/-- Claim C4, evaluated at the failing input: inserting MAX_TRACKED + 1
distinct identifiers into the empty ledger does keep the size at
MAX_TRACKED, but the eviction is NOT oldest-first.  The code pops an
arbitrary set element (its own comment reads "Remove oldest (first)
items", which a Python set cannot do); under the legal set.pop behaviour
pop_newest the earliest-inserted identifier is still present - and still
treated as a duplicate - while the just-inserted newest identifier was
the one evicted. -/
theorem claim_C4_eviction_not_oldest :
    (insert_all pop_newest (dedup_ids 1001) []).length = MAX_PROCESSED_MESSAGES
    ∧ is_message_processed (String.mk []) (insert_all pop_newest (dedup_ids 1001) []) = true
    ∧ is_message_processed (String.mk (List.replicate 1000 'a'))
        (insert_all pop_newest (dedup_ids 1001) []) = false := by
  have hsplit : dedup_ids 1001 = dedup_ids 1000 ++ [String.mk (List.replicate 1000 'a')] := by
    unfold dedup_ids
    have h1 : (1001 : Nat) = 1000 + 1 := by norm_num
    rw [h1, List.range_succ, List.map_append]
    rfl
  have hlen : (dedup_ids 1000).length = MAX_PROCESSED_MESSAGES := dedup_ids_length 1000
  have h1000 : insert_all pop_newest (dedup_ids 1000) [] = dedup_ids 1000 := by
    have h := insert_all_fresh pop_newest (dedup_ids 1000) [] (by simp) (dedup_ids_nodup 1000)
      (by simp only [List.length_nil, dedup_ids_length, MAX_PROCESSED_MESSAGES]; omega)
    simpa using h
  have hfinal : insert_all pop_newest (dedup_ids 1001) [] = dedup_ids 1000 := by
    rw [hsplit, insert_all_snoc, h1000]
    exact mark_fresh_at_bound_pop_newest (String.mk (List.replicate 1000 'a'))
      (dedup_ids 1000) (last_not_mem_dedup_ids 1000) hlen
  have hmem : String.mk [] ∈ dedup_ids 1000 := by
    have h0 : (0 : Nat) ∈ List.range 1000 := List.mem_range.mpr (by norm_num)
    exact List.mem_map.mpr ⟨0, h0, rfl⟩
  refine ⟨by rw [hfinal, hlen], ?_, ?_⟩
  · rw [hfinal]
    exact contains_true_of_mem hmem
  · rw [hfinal]
    exact contains_false_of_not_mem (last_not_mem_dedup_ids 1000)

theorem set_pop_length (pick : List String → Nat) (l : List String) (h : l ≠ []) :
    (set_pop pick l).length = l.length - 1 := by
  have hne : l.isEmpty = false := by simp [h]
  have hpos : 0 < l.length := List.length_pos.mpr h
  have hlt : pick l % l.length < l.length := Nat.mod_lt _ hpos
  simp [set_pop, hne, List.length_eraseIdx, hlt]

theorem mark_present (pick : List String → Nat) (i : String) (ledger : List String)
    (hm : i ∈ ledger) (h : ledger.length ≤ MAX_PROCESSED_MESSAGES) :
    mark_message_processed pick i ledger = ledger := by
  simp [mark_message_processed, hm]
  intro h2
  exact absurd h2 (by omega)

theorem mark_fresh_at_bound (pick : List String → Nat) (i : String) (ledger : List String)
    (hm : i ∉ ledger) (hlen : ledger.length = MAX_PROCESSED_MESSAGES) :
    mark_message_processed pick i ledger = set_pop pick (ledger ++ [i]) := by
  simp [mark_message_processed, hm]
  intro h2
  exact absurd h2 (by omega)

theorem mark_message_processed_size_bound (pick : List String → Nat) (i : String)
    (ledger : List String) (h : ledger.length ≤ MAX_PROCESSED_MESSAGES) :
    (mark_message_processed pick i ledger).length ≤ MAX_PROCESSED_MESSAGES := by
  by_cases hm : i ∈ ledger
  · rw [mark_present pick i ledger hm h]
    exact h
  · by_cases h2 : ledger.length = MAX_PROCESSED_MESSAGES
    · rw [mark_fresh_at_bound pick i ledger hm h2, set_pop_length pick _ (by simp)]
      simp
      omega
    · rw [mark_fresh_below_bound pick i ledger hm (by omega)]
      simp
      omega

/-! ## Dispatcher claims (C3, C7, C9) -/

/-- The sample identifier b is distinct from every ledger identifier of
dedup_ids (their characters are all a). -/
theorem b_not_mem_dedup_ids (n : Nat) : "b" ∉ dedup_ids n := by
  intro h
  simp only [dedup_ids, List.mem_map, List.mem_range] at h
  obtain ⟨i, _, hEq⟩ := h
  have hd := congrArg String.data hEq
  simp at hd
  have hmm : 'b' ∈ List.replicate i 'a' := by rw [hd]; simp
  have := List.eq_of_mem_replicate hmm
  exact absurd this (by decide)

/-- Every background pipeline task delivers at least one final message:
all three outcome branches send something. -/
theorem process_pipeline_in_background_ne_nil (res : Except String PipelineRunResult) :
    process_pipeline_in_background res ≠ [] := by
  cases res with
  | error e => simp [process_pipeline_in_background]
  | ok r =>
    by_cases hc : r.completed_successfully
    · by_cases hu : r.product_urls.isEmpty
      · simp [process_pipeline_in_background, hc, send_product_results, hu]
      · cases hul : r.product_urls with
        | nil => simp [hul] at hu
        | cons a t =>
          simp [process_pipeline_in_background, hc, send_product_results, hu, hul, url_batches]
    · simp [process_pipeline_in_background, hc]

/-- Number of chunks produced by the 10-per-message batching. -/
theorem url_batches_length (l : List String) :
    (url_batches l).length = (l.length + 9) / 10 := by
  induction l using url_batches.induct with
  | case1 => simp [url_batches]
  | case2 x xs ih =>
    simp [url_batches, ih]
    omega

/-- Number of messages sent by send_product_results: one apology for an
empty list, otherwise one message per batch of 10. -/
theorem send_product_results_length (urls : List String) (info : Option ProductInfo) :
    (send_product_results urls info).length = max 1 ((urls.length + 9) / 10) := by
  by_cases h : urls.isEmpty
  · have : urls = [] := by simpa using h
    simp [send_product_results, h, this]
  · have hne : urls ≠ [] := by simpa using h
    have hpos : 1 ≤ urls.length := List.length_pos.mpr hne
    have hdiv : 1 ≤ (urls.length + 9) / 10 := by omega
    simp [send_product_results, h, url_batches_length]
    omega

/-- Claim C3 (amended): delivering an admissible event with a fresh
message identifier twice, while the ledger is below its bound, results
in exactly one acknowledgment and exactly one pipeline launch - the
second delivery is recognised in the ledger and absorbed with no
actions - and every launched background task delivers at least (and per
C7 exactly) one final result.  The below-bound hypothesis is needed
because at capacity set.pop may evict the identifier just inserted, see
the counterexample. -/
theorem claim_C3_idempotent_admission (business_id : Option String) (pick : List String → Nat)
    (ledger : List String) (e : MessagingEvent) (m : Message) (mid u : String)
    (hsb : e.sender ≠ business_id)
    (hmsg : e.message = some m)
    (hecho : m.is_echo = false) (hread : e.has_read = false)
    (hmid : m.mid = some mid)
    (hnew : mid ∉ ledger)
    (hbound : ledger.length < MAX_PROCESSED_MESSAGES)
    (hcdn : extract_cdn_url m = some u) :
    process_events business_id pick ledger [e, e]
      = (ledger ++ [mid],
         [DispatchAction.ack e.sender true, DispatchAction.launch u mid e.sender])
    ∧ is_message_processed mid (ledger ++ [mid]) = true
    ∧ (∀ res, process_pipeline_in_background res ≠ []) := by
  have hsbb : (e.sender == business_id) = false := beq_eq_false_iff_ne.mpr hsb
  have hid : effective_message_id m = mid := by simp [effective_message_id, hmid]
  have hmark : mark_message_processed pick mid ledger = ledger ++ [mid] :=
    mark_fresh_below_bound pick mid ledger hnew hbound
  have hnewb : is_message_processed mid ledger = false := contains_false_of_not_mem hnew
  have hmem : is_message_processed mid (ledger ++ [mid]) = true :=
    contains_true_of_mem (by simp)
  have hstep : process_messaging_event business_id pick ledger e
      = (ledger ++ [mid],
         [DispatchAction.ack e.sender true, DispatchAction.launch u mid e.sender]) := by
    simp [process_messaging_event, hsbb, hsb, hmsg, hid, hecho, hread, hnewb, hmark, hcdn]
  have hstep2 : process_messaging_event business_id pick (ledger ++ [mid]) e
      = (ledger ++ [mid], []) := by
    simp [process_messaging_event, hsbb, hsb, hmsg, hid, hecho, hread, hmem]
  refine ⟨?_, hmem, fun res => process_pipeline_in_background_ne_nil res⟩
  simp [process_events, hstep, hstep2]

/-- Witness for C3 at a concrete admissible event on an empty ledger. -/
theorem claim_C3_witness :
    process_events (some "botid") pop_newest [] [cdn_event, cdn_event]
      = (["b"], [DispatchAction.ack (some "alice") true,
                 DispatchAction.launch demo_cdn_url "b" (some "alice")]) :=
  (claim_C3_idempotent_admission (some "botid") pop_newest [] cdn_event cdn_share_message
    "b" demo_cdn_url (by decide) rfl rfl rfl rfl (by simp) (by decide) (by decide)).1

/-- Counterexample to claim C3 as stated (for ALL events): when the
ledger is at its bound of 1000 entries, inserting the fresh identifier
overshoots the bound and set.pop may remove the identifier that was just
inserted (behaviour pop_newest); the duplicate delivery is then NOT
recognised, and two deliveries of the same message id produce two
acknowledgments and two pipeline launches. -/
theorem claim_C3_counterexample :
    (process_events (some "botid") pop_newest (dedup_ids 1000) [cdn_event, cdn_event]).2
      = [DispatchAction.ack (some "alice") true,
         DispatchAction.launch demo_cdn_url "b" (some "alice"),
         DispatchAction.ack (some "alice") true,
         DispatchAction.launch demo_cdn_url "b" (some "alice")] := by
  have hfresh : "b" ∉ dedup_ids 1000 := b_not_mem_dedup_ids 1000
  have hnew : is_message_processed "b" (dedup_ids 1000) = false :=
    contains_false_of_not_mem hfresh
  have hmark : mark_message_processed pop_newest "b" (dedup_ids 1000) = dedup_ids 1000 :=
    mark_fresh_at_bound_pop_newest "b" (dedup_ids 1000) hfresh (dedup_ids_length 1000)
  have hcdn : extract_cdn_url
      { mid := some "b", is_echo := false,
        attachments := [{ atype := "ig_reel", payload_url := some demo_cdn_url }] }
      = some demo_cdn_url := by decide
  have hstep : process_messaging_event (some "botid") pop_newest (dedup_ids 1000) cdn_event
      = (dedup_ids 1000,
         [DispatchAction.ack (some "alice") true,
          DispatchAction.launch demo_cdn_url "b" (some "alice")]) := by
    simp [process_messaging_event, cdn_event, cdn_share_message, effective_message_id,
          hnew, hmark, hcdn]
  simp [process_events, hstep]

/-- Claim C7 (amended): for an admissible event in which a CDN URL was
detected, the user receives exactly the immediate acknowledgment
followed by the background task's final outcome; the final outcome is
exactly one message on every failure path and on success with at most
10 URLs, and ceil(n/10) chunked messages for n result URLs. -/
theorem claim_C7_two_messages (business_id : Option String) (pick : List String → Nat)
    (ledger : List String) (e : MessagingEvent) (m : Message) (mid u : String)
    (hsb : e.sender ≠ business_id)
    (hmsg : e.message = some m)
    (hecho : m.is_echo = false) (hread : e.has_read = false)
    (hmid : m.mid = some mid)
    (hnew : mid ∉ ledger)
    (hcdn : extract_cdn_url m = some u)
    (res : Except String PipelineRunResult) :
    event_user_messages business_id pick ledger e res
      = ack_text_analyzing :: process_pipeline_in_background res
    ∧ (∀ msg, res = Except.error msg → (process_pipeline_in_background res).length = 1)
    ∧ (∀ r, res = Except.ok r → r.completed_successfully = false →
        (process_pipeline_in_background res).length = 1)
    ∧ (∀ r, res = Except.ok r → r.completed_successfully = true →
        (process_pipeline_in_background res).length
          = max 1 ((r.product_urls.length + 9) / 10)) := by
  have hsbb : (e.sender == business_id) = false := beq_eq_false_iff_ne.mpr hsb
  have hid : effective_message_id m = mid := by simp [effective_message_id, hmid]
  have hnewb : is_message_processed mid ledger = false := contains_false_of_not_mem hnew
  have hstep : process_messaging_event business_id pick ledger e
      = (mark_message_processed pick mid ledger,
         [DispatchAction.ack e.sender true, DispatchAction.launch u mid e.sender]) := by
    simp [process_messaging_event, hsbb, hsb, hmsg, hid, hecho, hread, hnewb, hcdn]
  refine ⟨?_, ?_, ?_, ?_⟩
  · simp [event_user_messages, hstep, action_messages]
  · intro msg hres
    simp [hres, process_pipeline_in_background]
  · intro r hres hrc
    simp [hres, process_pipeline_in_background, hrc]
  · intro r hres hrc
    simp [hres, process_pipeline_in_background, hrc, send_product_results_length]

/-- Witness for C7 at a concrete admissible CDN event whose pipeline
result is a failure: the user gets the acknowledgment and one failure
notice. -/
theorem claim_C7_witness :
    event_user_messages (some "botid") pop_newest [] cdn_event
        (Except.ok { completed_successfully := false })
      = ack_text_analyzing
          :: process_pipeline_in_background (Except.ok { completed_successfully := false }) :=
  (claim_C7_two_messages (some "botid") pop_newest [] cdn_event cdn_share_message
    "b" demo_cdn_url (by decide) rfl rfl rfl rfl (by simp) (by decide)
    (Except.ok { completed_successfully := false })).1

/-- Counterexample to claim C7 as stated: an admissible event WITHOUT a
detected CDN URL is acknowledged but no pipeline is launched and no
final outcome message is ever sent - the user receives exactly one
message, not two. -/
theorem claim_C7_counterexample :
    (event_user_messages (some "botid") pop_newest [] no_cdn_event
        (Except.ok { completed_successfully := true,
                     product_urls := ["https://retailer.example/p/42"] })).length = 1 := by
  decide

/-- Counterexample to claim C9 as stated: a message without a platform
message identifier gets the CONSTANT identifier unknown, not one
synthesized from sender and timestamp; consequently two distinct
identifier-less events from different senders are conflated - the
second is dropped as a duplicate and produces no action at all. -/
theorem claim_C9_counterexample :
    effective_message_id { mid := none, is_echo := false, attachments := [] } = "unknown"
    ∧ (process_events (some "botid") pop_newest [] [no_mid_event_alice, no_mid_event_bob]).2
        = [DispatchAction.ack (some "alice") false] := by
  constructor
  · rfl
  · decide

/-- Claim C9 (amended): when the message lacks a mid the dispatcher
falls back to the constant identifier unknown (message.get('mid',
'unknown')); deduplication then conflates all identifier-less events:
after one such event is admitted, a second identifier-less event - even
from a different sender - contributes no further actions. -/
theorem claim_C9_unknown_conflation (business_id : Option String) (pick : List String → Nat)
    (ledger : List String) (e1 e2 : MessagingEvent) (m1 m2 : Message)
    (h1s : e1.sender ≠ business_id) (h2s : e2.sender ≠ business_id)
    (h1m : e1.message = some m1) (h2m : e2.message = some m2)
    (h1e : m1.is_echo = false) (h2e : m2.is_echo = false)
    (h1r : e1.has_read = false) (h2r : e2.has_read = false)
    (h1mid : m1.mid = none) (h2mid : m2.mid = none)
    (hnew : "unknown" ∉ ledger) (hbound : ledger.length < MAX_PROCESSED_MESSAGES) :
    effective_message_id m1 = "unknown"
    ∧ effective_message_id m2 = "unknown"
    ∧ (process_events business_id pick ledger [e1, e2]).2
        = (process_events business_id pick ledger [e1]).2 := by
  have h1sb : (e1.sender == business_id) = false := beq_eq_false_iff_ne.mpr h1s
  have h2sb : (e2.sender == business_id) = false := beq_eq_false_iff_ne.mpr h2s
  have hid1 : effective_message_id m1 = "unknown" := by simp [effective_message_id, h1mid]
  have hid2 : effective_message_id m2 = "unknown" := by simp [effective_message_id, h2mid]
  have hnewb : is_message_processed "unknown" ledger = false := contains_false_of_not_mem hnew
  have hmark : mark_message_processed pick "unknown" ledger = ledger ++ ["unknown"] :=
    mark_fresh_below_bound pick "unknown" ledger hnew hbound
  have hmem : is_message_processed "unknown" (ledger ++ ["unknown"]) = true :=
    contains_true_of_mem (by simp)
  have h1ledger : (process_messaging_event business_id pick ledger e1).1
      = ledger ++ ["unknown"] := by
    cases hc : extract_cdn_url m1 <;>
      simp [process_messaging_event, h1sb, h1s, h1m, hid1, h1e, h1r, hnewb, hmark, hc]
  have hskip : process_messaging_event business_id pick (ledger ++ ["unknown"]) e2
      = (ledger ++ ["unknown"], []) := by
    simp [process_messaging_event, h2sb, h2s, h2m, hid2, h2e, h2r, hmem]
  refine ⟨hid1, hid2, ?_⟩
  simp [process_events, h1ledger, hskip]

/-- Witness for C9 (amended) at two concrete identifier-less events from
different senders. -/
theorem claim_C9_witness :
    effective_message_id { mid := none, is_echo := false, attachments := [] } = "unknown"
    ∧ (process_events (some "botid") pop_newest ["m-0"]
          [no_mid_event_alice, no_mid_event_bob]).2
        = (process_events (some "botid") pop_newest ["m-0"] [no_mid_event_alice]).2 :=
  ⟨(claim_C9_unknown_conflation (some "botid") pop_newest ["m-0"]
      no_mid_event_alice no_mid_event_bob { mid := none } { mid := none }
      (by decide) (by decide) rfl rfl rfl rfl rfl rfl rfl rfl (by decide) (by decide)).1,
   (claim_C9_unknown_conflation (some "botid") pop_newest ["m-0"]
      no_mid_event_alice no_mid_event_bob { mid := none } { mid := none }
      (by decide) (by decide) rfl rfl rfl rfl rfl rfl rfl rfl (by decide) (by decide)).2.2⟩

/-! ## Candidate-URL deduplication claim (C6) -/

/-- Signature of a URL on which the parse succeeds. -/
theorem sig_of_some {parse : String → Option (String × String)} {u : String}
    {p : String × String} (h : parse u = some p) :
    sig_of parse u = some (url_signature p.1 p.2) := by
  simp [sig_of, h]

/-- A URL on which the parse fails has no signature. -/
theorem sig_of_none {parse : String → Option (String × String)} {u : String}
    (h : parse u = none) : sig_of parse u = none := by
  simp [sig_of, h]

/-- Master invariant of the deduplication loop: assuming the recorded
signatures are exactly the signatures of the kept parseable entries,
without duplicates, and each kept malformed entry occurs at most once,
the loop (1) only appends elements of the remaining input, (2) keeps
the kept signatures duplicate-free, (3) retains every malformed input,
(4) keeps each malformed string at most once, (5) represents the
signature of every parseable input, and (6) every newly kept parseable
entry is the first element of the remaining input with its signature. -/
theorem dedup_urls_go_spec (parse : String → Option (String × String)) :
    ∀ (rest unique seen : List String),
    unique.filterMap (sig_of parse) = seen →
    seen.Nodup →
    (∀ u, parse u = none → unique.count u ≤ 1) →
    (∃ tail, dedup_urls_go parse rest unique seen = unique ++ tail ∧ ∀ v ∈ tail, v ∈ rest)
    ∧ ((dedup_urls_go parse rest unique seen).filterMap (sig_of parse)).Nodup
    ∧ (∀ u ∈ rest, parse u = none → u ∈ dedup_urls_go parse rest unique seen)
    ∧ (∀ u, parse u = none → (dedup_urls_go parse rest unique seen).count u ≤ 1)
    ∧ (∀ u ∈ rest, ∀ s, sig_of parse u = some s →
        s ∈ (dedup_urls_go parse rest unique seen).filterMap (sig_of parse))
    ∧ (∀ v ∈ dedup_urls_go parse rest unique seen, v ∉ unique →
        ∀ s, sig_of parse v = some s →
          s ∉ seen ∧ rest.find? (fun w => sig_of parse w == some s) = some v) := by
  intro rest
  induction rest with
  | nil =>
    intro unique seen h1 h2 h3
    refine ⟨⟨[], by simp [dedup_urls_go], by simp⟩, ?_, by simp [dedup_urls_go],
            ?_, by simp, ?_⟩
    · simpa [dedup_urls_go, h1] using h2
    · intro u hu
      simpa [dedup_urls_go] using h3 u hu
    · intro v hv hvu s hs
      simp [dedup_urls_go] at hv
      exact absurd hv hvu
  | cons url rest ih =>
    intro unique seen h1 h2 h3
    cases hp : parse url with
    | some p =>
      by_cases hs : url_signature p.1 p.2 ∈ seen
      · -- duplicate signature: skip url
        have hgo : dedup_urls_go parse (url :: rest) unique seen
            = dedup_urls_go parse rest unique seen := by
          simp [dedup_urls_go, hp, hs]
        obtain ⟨hpre, hnd, hmal, hcnt, hrep, hfirst⟩ := ih unique seen h1 h2 h3
        obtain ⟨tail, htail, htmem⟩ := hpre
        rw [hgo]
        refine ⟨⟨tail, htail, fun v hv => List.mem_cons_of_mem url (htmem v hv)⟩,
                hnd, ?_, hcnt, ?_, ?_⟩
        · intro u hu hun
          rcases List.mem_cons.mp hu with h | h
          · subst h; rw [hun] at hp; exact absurd hp (by simp)
          · exact hmal u h hun
        · intro u hu s hsig
          rcases List.mem_cons.mp hu with h | h
          · -- u = url: its signature is already represented in unique
            subst h
            rw [sig_of_some hp] at hsig
            obtain rfl : url_signature p.1 p.2 = s := Option.some.inj hsig
            have hs2 : url_signature p.1 p.2 ∈ unique.filterMap (sig_of parse) := by
              rw [h1]; exact hs
            rw [htail, List.filterMap_append]
            exact List.mem_append_left _ hs2
          · exact hrep u h s hsig
        · intro v hv hvu s hsig
          obtain ⟨hns, hfind⟩ := hfirst v hv hvu s hsig
          refine ⟨hns, ?_⟩
          have hnes : url_signature p.1 p.2 ≠ s := fun h => hns (h ▸ hs)
          have hpred : (sig_of parse url == some s) = false := by
            rw [sig_of_some hp]
            simp [hnes]
          simp [List.find?, hpred, hfind]
      · -- new signature: keep url
        have hgo : dedup_urls_go parse (url :: rest) unique seen
            = dedup_urls_go parse rest (unique ++ [url]) (seen ++ [url_signature p.1 p.2]) := by
          simp [dedup_urls_go, hp, hs]
        have h1' : (unique ++ [url]).filterMap (sig_of parse)
            = seen ++ [url_signature p.1 p.2] := by
          rw [List.filterMap_append, h1]
          simp [sig_of_some hp]
        have h2' : (seen ++ [url_signature p.1 p.2]).Nodup := by
          simp [List.nodup_append, h2, hs]
        have h3' : ∀ u, parse u = none → (unique ++ [url]).count u ≤ 1 := by
          intro u hu
          have hne : u ≠ url := fun h => by rw [h, hp] at hu; exact Option.noConfusion hu
          rw [List.count_append]
          have hz : List.count u [url] = 0 := by
            simp [List.count_singleton]
            exact fun h => absurd h.symm hne
          have h4 := h3 u hu
          omega
        obtain ⟨hpre, hnd, hmal, hcnt, hrep, hfirst⟩ :=
          ih (unique ++ [url]) (seen ++ [url_signature p.1 p.2]) h1' h2' h3'
        obtain ⟨tail, htail, htmem⟩ := hpre
        rw [hgo]
        refine ⟨⟨url :: tail, by rw [htail]; simp, ?_⟩, hnd, ?_, hcnt, ?_, ?_⟩
        · intro v hv
          rcases List.mem_cons.mp hv with h | h
          · simp [h]
          · exact List.mem_cons_of_mem url (htmem v h)
        · intro u hu hun
          rcases List.mem_cons.mp hu with h | h
          · subst h; rw [hun] at hp; exact absurd hp (by simp)
          · exact hmal u h hun
        · intro u hu s hsig
          rcases List.mem_cons.mp hu with h | h
          · subst h
            rw [sig_of_some hp] at hsig
            obtain rfl : url_signature p.1 p.2 = s := Option.some.inj hsig
            rw [htail, List.filterMap_append]
            refine List.mem_append_left _ ?_
            rw [h1']
            simp
          · exact hrep u h s hsig
        · intro v hv hvu s hsig
          by_cases hvin : v ∈ unique ++ [url]
          · have hveq : v = url := by
              rcases List.mem_append.mp hvin with h | h
              · exact absurd h hvu
              · simpa using h
            subst hveq
            rw [sig_of_some hp] at hsig
            obtain rfl : url_signature p.1 p.2 = s := Option.some.inj hsig
            refine ⟨hs, ?_⟩
            have hpred : (sig_of parse v == some (url_signature p.1 p.2)) = true := by
              rw [sig_of_some hp]
              simp
            simp [List.find?, hpred]
          · obtain ⟨hns, hfind⟩ := hfirst v hv hvin s hsig
            have hns2 : s ∉ seen := fun h => hns (List.mem_append_left _ h)
            have hnes : url_signature p.1 p.2 ≠ s := by
              intro h
              exact hns (h ▸ List.mem_append_right _ (by simp))
            refine ⟨hns2, ?_⟩
            have hpred : (sig_of parse url == some s) = false := by
              rw [sig_of_some hp]
              simp [hnes]
            simp [List.find?, hpred, hfind]
    | none =>
      by_cases hu : url ∈ unique
      · have hgo : dedup_urls_go parse (url :: rest) unique seen
            = dedup_urls_go parse rest unique seen := by
          simp [dedup_urls_go, hp, hu]
        obtain ⟨hpre, hnd, hmal, hcnt, hrep, hfirst⟩ := ih unique seen h1 h2 h3
        obtain ⟨tail, htail, htmem⟩ := hpre
        rw [hgo]
        refine ⟨⟨tail, htail, fun v hv => List.mem_cons_of_mem url (htmem v hv)⟩,
                hnd, ?_, hcnt, ?_, ?_⟩
        · intro u hum hun
          rcases List.mem_cons.mp hum with h | h
          · subst h
            rw [htail]
            exact List.mem_append_left _ hu
          · exact hmal u h hun
        · intro u hum s hsig
          rcases List.mem_cons.mp hum with h | h
          · subst h
            rw [sig_of_none hp] at hsig
            exact Option.noConfusion hsig
          · exact hrep u h s hsig
        · intro v hv hvu s hsig
          obtain ⟨hns, hfind⟩ := hfirst v hv hvu s hsig
          refine ⟨hns, ?_⟩
          have hpred : (sig_of parse url == some s) = false := by
            rw [sig_of_none hp]
            simp
          simp [List.find?, hpred, hfind]
      · have hgo : dedup_urls_go parse (url :: rest) unique seen
            = dedup_urls_go parse rest (unique ++ [url]) seen := by
          simp [dedup_urls_go, hp, hu]
        have h1' : (unique ++ [url]).filterMap (sig_of parse) = seen := by
          rw [List.filterMap_append, h1]
          simp [sig_of_none hp]
        have h3' : ∀ u, parse u = none → (unique ++ [url]).count u ≤ 1 := by
          intro u hpu
          rw [List.count_append]
          by_cases he : u = url
          · subst he
            have h0 : unique.count u = 0 := by
              exact List.count_eq_zero.mpr hu
            simp [h0, List.count_singleton]
          · have : List.count u [url] = 0 := by
              simp [List.count_singleton]
              exact fun h => absurd h.symm he
            have := h3 u hpu
            omega
        obtain ⟨hpre, hnd, hmal, hcnt, hrep, hfirst⟩ :=
          ih (unique ++ [url]) seen h1' h2 h3'
        obtain ⟨tail, htail, htmem⟩ := hpre
        rw [hgo]
        refine ⟨⟨url :: tail, by rw [htail]; simp, ?_⟩, hnd, ?_, hcnt, ?_, ?_⟩
        · intro v hv
          rcases List.mem_cons.mp hv with h | h
          · simp [h]
          · exact List.mem_cons_of_mem url (htmem v h)
        · intro u hum hun
          rcases List.mem_cons.mp hum with h | h
          · subst h
            rw [htail]
            exact List.mem_append_left _ (by simp)
          · exact hmal u h hun
        · intro u hum s hsig
          rcases List.mem_cons.mp hum with h | h
          · subst h
            rw [sig_of_none hp] at hsig
            exact Option.noConfusion hsig
          · exact hrep u h s hsig
        · intro v hv hvu s hsig
          have hvne : v ≠ url := by
            intro h
            rw [h, sig_of_none hp] at hsig
            exact Option.noConfusion hsig
          have hvin : v ∉ unique ++ [url] := by
            intro h
            rcases List.mem_append.mp h with h' | h'
            · exact hvu h'
            · exact hvne (by simpa using h')
          obtain ⟨hns, hfind⟩ := hfirst v hv hvin s hsig
          refine ⟨hns, ?_⟩
          have hpred : (sig_of parse url == some s) = false := by
            rw [sig_of_none hp]
            simp
          simp [List.find?, hpred, hfind]

/-- Claim C6: the deduplication pass keeps at most one entry per
(host, normalizedPath) signature (the kept signatures are
duplicate-free), keeps only input candidates, represents the signature
of every parseable input, retains the first-seen candidate of each
signature class, never raises on malformed URLs (the parse failure is
handled, the input retained), and deduplicates malformed inputs only by
exact string equality (each occurs exactly once). -/
theorem claim_C6_dedup_candidates (parse : String → Option (String × String))
    (urls : List String) :
    ((dedup_candidate_urls parse urls).filterMap (sig_of parse)).Nodup
    ∧ (∀ v ∈ dedup_candidate_urls parse urls, v ∈ urls)
    ∧ (∀ u ∈ urls, ∀ s, sig_of parse u = some s →
        s ∈ (dedup_candidate_urls parse urls).filterMap (sig_of parse))
    ∧ (∀ v ∈ dedup_candidate_urls parse urls, ∀ s, sig_of parse v = some s →
        urls.find? (fun w => sig_of parse w == some s) = some v)
    ∧ (∀ u ∈ urls, parse u = none →
        u ∈ dedup_candidate_urls parse urls
        ∧ (dedup_candidate_urls parse urls).count u = 1) := by
  obtain ⟨hpre, hnd, hmal, hcnt, hrep, hfirst⟩ :=
    dedup_urls_go_spec parse urls [] [] (by simp) (by simp) (by simp)
  obtain ⟨tail, htail, htmem⟩ := hpre
  have hout : dedup_candidate_urls parse urls = dedup_urls_go parse urls [] [] := rfl
  refine ⟨by rw [hout]; exact hnd, ?_, by rw [hout]; exact hrep, ?_, ?_⟩
  · intro v hv
    rw [hout, htail] at hv
    simpa using htmem v (by simpa using hv)
  · intro v hv s hsig
    rw [hout] at hv
    exact (hfirst v hv (by simp) s hsig).2
  · intro u hu hpu
    have hm : u ∈ dedup_candidate_urls parse urls := by
      rw [hout]; exact hmal u hu hpu
    refine ⟨hm, ?_⟩
    have hle : (dedup_candidate_urls parse urls).count u ≤ 1 := by
      rw [hout]; exact hcnt u hpu
    have hge : 0 < (dedup_candidate_urls parse urls).count u := List.count_pos_iff.mpr hm
    omega

/-- Witness for C6 at the spec's sample inputs: the repeated malformed
URL is retained exactly once. -/
theorem claim_C6_witness :
    "http://[" ∈ dedup_candidate_urls demo_parse demo_urls
    ∧ (dedup_candidate_urls demo_parse demo_urls).count "http://[" = 1 :=
  (claim_C6_dedup_candidates demo_parse demo_urls).2.2.2.2 "http://[" (by decide) (by decide)
